import Mathlib

/-!
Verification of the nexum-kit EIP-1193 core: the wallet error taxonomy
(crates/alloy-eip1193/src/error.rs), the request bridge
(crates/alloy-eip1193/src/transport.rs), the signer
(crates/alloy-eip1193/src/signer.rs) and the connection state machine
(crates/leptos-rainbowkit/src/state/connection.rs).

Definitions are shallow embeddings of the Rust source.  Definitions whose
name begins with `spec` are written from the natural-language specification
instead, and are compared against the source embeddings in the theorems.
-/

namespace NexumKit

/-! ## Rust string primitives used by the source -/

/-- Rust `char::is_whitespace`: the Unicode White_Space property, given by
its code points. -/
def rustIsWhitespace (c : Char) : Bool :=
  let n := c.toNat
  (0x9 ≤ n && n ≤ 0xd) || n = 0x20 || n = 0x85 || n = 0xa0 || n = 0x1680 ||
  (0x2000 ≤ n && n ≤ 0x200a) || n = 0x2028 || n = 0x2029 || n = 0x202f ||
  n = 0x205f || n = 0x3000

/-- Accumulator for `splitWhitespace`: the current (reversed) token. -/
def splitWhitespaceAux : List Char → List Char → List String
  | [], acc => if acc.isEmpty then [] else [String.mk acc.reverse]
  | c :: cs, acc =>
    if rustIsWhitespace c then
      if acc.isEmpty then splitWhitespaceAux cs []
      else String.mk acc.reverse :: splitWhitespaceAux cs []
    else splitWhitespaceAux cs (c :: acc)

/-- Rust `str::split_whitespace`: whitespace-delimited tokens, never empty. -/
def splitWhitespace (s : String) : List String :=
  splitWhitespaceAux s.toList []

/-- Rust `char::is_ascii_digit`: code points 0x30 through 0x39. -/
def isAsciiDigit (c : Char) : Bool :=
  48 ≤ c.toNat && c.toNat ≤ 57

/-- Numeric value of an ascii decimal digit. -/
def decDigitToNat (c : Char) : Nat :=
  c.toNat - 48

/-- Value of an ascii hex digit, if it is one: code points 0x30-0x39,
0x61-0x66 and 0x41-0x46. -/
def hexDigitVal? (c : Char) : Option Nat :=
  let n := c.toNat
  if 48 ≤ n && n ≤ 57 then some (n - 48)
  else if 97 ≤ n && n ≤ 102 then some (n - 87)
  else if 65 ≤ n && n ≤ 70 then some (n - 55)
  else none

/-- Value of a nonempty all-decimal-digit character list, `none` otherwise. -/
def decDigitsVal? : List Char → Option Nat
  | [] => none
  | cs =>
    if cs.all isAsciiDigit then some (cs.foldl (fun a c => a * 10 + decDigitToNat c) 0)
    else none

/-- Value of a nonempty all-hex-digit character list, `none` otherwise. -/
def hexDigitsVal? : List Char → Option Nat
  | [] => none
  | cs =>
    if cs.all (fun c => (hexDigitVal? c).isSome) then
      some (cs.foldl (fun a c => a * 16 + (hexDigitVal? c).getD 0) 0)
    else none

/-- Rust `str::parse::<u64>()`: an optional leading plus sign, then one or
more decimal digits, value bounded by `2 ^ 64`. -/
def rustParseU64 (s : String) : Option Nat :=
  let cs := match s.toList with
    | '+' :: rest => rest
    | cs => cs
  match decDigitsVal? cs with
  | some v => if v < 2 ^ 64 then some v else none
  | none => none

/-- Rust `u64::from_str_radix(s, 16)`: an optional leading plus sign, then
one or more hex digits, value bounded by `2 ^ 64`. -/
def rustParseU64Hex (s : String) : Option Nat :=
  let cs := match s.toList with
    | '+' :: rest => rest
    | cs => cs
  match hexDigitsVal? cs with
  | some v => if v < 2 ^ 64 then some v else none
  | none => none

/-- Rust `str::trim_start_matches("0x")`: repeatedly strip a leading "0x". -/
def trimStartMatches0x : List Char → List Char
  | '0' :: 'x' :: rest => trimStartMatches0x rest
  | cs => cs

/-- Rust `str::starts_with("0x")`. -/
def starts0x : List Char → Bool
  | '0' :: 'x' :: _ => true
  | _ => false

/-- Parse a "0x"-prefixed-or-plain hex chain id string the way
`connection.rs` does: `trim_start_matches("0x")` then
`u64::from_str_radix(_, 16)`. -/
def parseHexChainId (s : String) : Option Nat :=
  rustParseU64Hex (String.mk (trimStartMatches0x s.toList))

/-! ## Error taxonomy (crates/alloy-eip1193/src/error.rs) -/

/-- The `Eip1193Error` enum from error.rs.  `JsValue`-carrying content is
modeled as `String`; `u64` chain ids as `Nat`; the `i32` code as `Int`. -/
inductive Eip1193Error where
  | UserRejectedRequest
  | Unauthorized (msg : String)
  | UnsupportedMethod (msg : String)
  | Disconnected
  | ChainDisconnected (chainId : Nat)
  | UnrecognizedChain (chainId : Nat)
  | JsError (msg : String)
  | UnknownError (code : Int) (message : String)
  | SerializationError (msg : String)
deriving DecidableEq, Repr

/-- `Eip1193Error::from_code` (error.rs lines 165-199). -/
def Eip1193Error.from_code (code : Int) (message : String) : Eip1193Error :=
  if code = 4001 then .UserRejectedRequest
  else if code = 4100 then .Unauthorized message
  else if code = 4200 then .UnsupportedMethod message
  else if code = 4900 then .Disconnected
  else if code = 4901 then
    -- message.split_whitespace().last().and_then(|s| s.parse().ok())
    --   .map(Self::ChainDisconnected).unwrap_or(Self::ChainDisconnected(0))
    match (splitWhitespace message).getLast? with
    | some tok =>
      match rustParseU64 tok with
      | some n => .ChainDisconnected n
      | none => .ChainDisconnected 0
    | none => .ChainDisconnected 0
  else if code = 4902 then
    -- message.split_whitespace()
    --   .find(|s| s.starts_with("0x") || s.chars().all(|c| c.is_ascii_digit()))
    --   .and_then(hex-or-decimal parse).map(Self::UnrecognizedChain)
    --   .unwrap_or(Self::UnrecognizedChain(0))
    match (splitWhitespace message).find?
        (fun s => starts0x s.toList || s.toList.all isAsciiDigit) with
    | some tok =>
      match (if starts0x tok.toList then
               rustParseU64Hex (String.mk (trimStartMatches0x tok.toList))
             else rustParseU64 tok) with
      | some n => .UnrecognizedChain n
      | none => .UnrecognizedChain 0
    | none => .UnrecognizedChain 0
  else .UnknownError code message

/-- `Eip1193Error::code` (error.rs lines 205-216). -/
def Eip1193Error.code : Eip1193Error → Int
  | .UserRejectedRequest => 4001
  | .Unauthorized _ => 4100
  | .UnsupportedMethod _ => 4200
  | .Disconnected => 4900
  | .ChainDisconnected _ => 4901
  | .UnrecognizedChain _ => 4902
  | .UnknownError code _ => code
  | .JsError _ => 0
  | .SerializationError _ => 0

/-- `Eip1193Error::user_message` (error.rs lines 299-309), for the named
variants with a fixed text. -/
def Eip1193Error.user_message : Eip1193Error → String
  | .UserRejectedRequest => "Cancelled by user"
  | .Unauthorized _ => "Not authorized - please connect your wallet first"
  | .UnsupportedMethod _ => "This operation is not supported by your wallet"
  | .Disconnected => "Wallet disconnected - please reconnect"
  | .ChainDisconnected chainId =>
      "Wrong network - please switch to chain " ++ toString chainId
  | .UnrecognizedChain chainId =>
      "Chain " ++ toString chainId ++
      " not configured - please add it to your wallet first"
  | e => "Error: " ++ toString e.code

/-- Constructor discriminant of `Eip1193Error`, used to state which named
variant a classification returns. -/
inductive ErrTag where
  | userRejected
  | unauthorized
  | unsupportedMethod
  | disconnected
  | chainDisconnected
  | unrecognizedChain
  | jsError
  | unknownError
  | serializationError
deriving DecidableEq, Repr

/-- Discriminant of an `Eip1193Error` value. -/
def Eip1193Error.tag : Eip1193Error → ErrTag
  | .UserRejectedRequest => .userRejected
  | .Unauthorized _ => .unauthorized
  | .UnsupportedMethod _ => .unsupportedMethod
  | .Disconnected => .disconnected
  | .ChainDisconnected _ => .chainDisconnected
  | .UnrecognizedChain _ => .unrecognizedChain
  | .JsError _ => .jsError
  | .UnknownError _ _ => .unknownError
  | .SerializationError _ => .serializationError

/-- The spec assignment of EIP-1193 codes to named variants ("4001 maps to
UserRejected, 4100 to Unauthorized, 4200 to UnsupportedMethod, 4900 to
Disconnected, 4901 to ChainDisconnected, 4902 to UnrecognizedChain; all other
codes map to Unknown"). -/
def specExpectedTag (code : Int) : ErrTag :=
  if code = 4001 then .userRejected
  else if code = 4100 then .unauthorized
  else if code = 4200 then .unsupportedMethod
  else if code = 4900 then .disconnected
  else if code = 4901 then .chainDisconnected
  else if code = 4902 then .unrecognizedChain
  else .unknownError

/-- The known EIP-1193 codes named by the spec. -/
def specKnownCodes : List Int := [4001, 4100, 4200, 4900, 4901, 4902]

/-- The spec description of the 4901 chain-id extraction: "parse the last
whitespace-delimited token as a decimal integer". -/
def specParseTrailingInteger (msg : String) : Option Nat :=
  (splitWhitespace msg).getLast?.bind rustParseU64

/-- The claim reading of the 4902 chain-id extraction: "scan
whitespace-delimited tokens, take the first token that is 0x-prefixed hex or
pure decimal, and return its value".  A token qualifies as 0x-prefixed hex
only when the part after 0x is nonempty hex digits. -/
def specHexOrDecimalTokenValue (msg : String) : Option Nat :=
  ((splitWhitespace msg).find? (fun t =>
      (match t.toList with
       | '0' :: 'x' :: rest =>
         !rest.isEmpty && rest.all (fun c => (hexDigitVal? c).isSome)
       | _ => false)
      || (!t.toList.isEmpty && t.toList.all isAsciiDigit))).bind
    (fun t => match t.toList with
      | '0' :: 'x' :: rest => hexDigitsVal? rest
      | cs => decDigitsVal? cs)

/-- The amended description of the 4902 chain-id extraction, matching the
source: take the first token that starts with "0x" or is all decimal digits;
parse it as hex after stripping leading "0x" repetitions, or as decimal; 0
when no token is selected or the selected token fails to parse as a u64. -/
def specAmendedHexOrDecValue (msg : String) : Nat :=
  match (splitWhitespace msg).find?
      (fun t => starts0x t.toList || t.toList.all isAsciiDigit) with
  | some t =>
    (if starts0x t.toList then
       rustParseU64Hex (String.mk (trimStartMatches0x t.toList))
     else rustParseU64 t).getD 0
  | none => 0

/-- Unfolding lemma: `from_code` at 4901 always builds `ChainDisconnected`
from the last-token decimal parse. -/
lemma from_code_4901_eq (msg : String) :
    Eip1193Error.from_code 4901 msg =
      .ChainDisconnected ((specParseTrailingInteger msg).getD 0) := by
  unfold Eip1193Error.from_code specParseTrailingInteger
  rw [if_neg (by decide : ¬ ((4901 : Int) = 4001)),
    if_neg (by decide : ¬ ((4901 : Int) = 4100)),
    if_neg (by decide : ¬ ((4901 : Int) = 4200)),
    if_neg (by decide : ¬ ((4901 : Int) = 4900)), if_pos rfl]
  cases h : (splitWhitespace msg).getLast? with
  | none => rfl
  | some tok =>
    simp only [Option.some_bind]
    cases h2 : rustParseU64 tok with
    | none => rfl
    | some n => rfl

/-- Helper: folding an `Option Nat` match into `Option.getD`. -/
lemma matchOptionUnrecognized (o : Option Nat) :
    (match o with
     | some n => Eip1193Error.UnrecognizedChain n
     | none => Eip1193Error.UnrecognizedChain 0) =
      .UnrecognizedChain (o.getD 0) := by
  cases o <;> rfl

/-- Unfolding lemma: `from_code` at 4902 always builds `UnrecognizedChain`
from the first-matching-token hex-or-decimal parse. -/
lemma from_code_4902_eq (msg : String) :
    Eip1193Error.from_code 4902 msg =
      .UnrecognizedChain (specAmendedHexOrDecValue msg) := by
  unfold Eip1193Error.from_code specAmendedHexOrDecValue
  rw [if_neg (by decide : ¬ ((4902 : Int) = 4001)),
    if_neg (by decide : ¬ ((4902 : Int) = 4100)),
    if_neg (by decide : ¬ ((4902 : Int) = 4200)),
    if_neg (by decide : ¬ ((4902 : Int) = 4900)),
    if_neg (by decide : ¬ ((4902 : Int) = 4901)), if_pos rfl]
  cases h : (splitWhitespace msg).find?
      (fun s => starts0x s.toList || s.toList.all isAsciiDigit) with
  | none => rfl
  | some tok =>
    exact matchOptionUnrecognized (if starts0x tok.toList then
        rustParseU64Hex (String.mk (trimStartMatches0x tok.toList))
      else rustParseU64 tok)

/-- C1: for every integer code in {4001,4100,4200,4900,4901,4902} and every
message, `from_code` returns the named variant assigned to that code and
`code` of the result returns the same code; for every other integer code,
`from_code` returns `UnknownError code message` whose `code` is again the
input code. -/
theorem from_code_roundtrip_classification (c : Int) (msg : String) :
    (Eip1193Error.from_code c msg).code = c
    ∧ (Eip1193Error.from_code c msg).tag = specExpectedTag c
    ∧ (c ∈ specKnownCodes ∨ Eip1193Error.from_code c msg = .UnknownError c msg) := by
  by_cases h1 : c = 4001
  · subst h1
    refine ⟨rfl, rfl, Or.inl (by decide)⟩
  by_cases h2 : c = 4100
  · subst h2
    refine ⟨rfl, rfl, Or.inl (by decide)⟩
  by_cases h3 : c = 4200
  · subst h3
    refine ⟨rfl, rfl, Or.inl (by decide)⟩
  by_cases h4 : c = 4900
  · subst h4
    refine ⟨rfl, rfl, Or.inl (by decide)⟩
  by_cases h5 : c = 4901
  · subst h5
    rw [from_code_4901_eq]
    refine ⟨rfl, rfl, Or.inl (by decide)⟩
  by_cases h6 : c = 4902
  · subst h6
    rw [from_code_4902_eq]
    refine ⟨rfl, rfl, Or.inl (by decide)⟩
  have hfc : Eip1193Error.from_code c msg = .UnknownError c msg := by
    simp [Eip1193Error.from_code, h1, h2, h3, h4, h5, h6]
  refine ⟨by rw [hfc]; rfl, ?_, Or.inr hfc⟩
  rw [hfc]
  simp [Eip1193Error.tag, specExpectedTag, h1, h2, h3, h4, h5, h6]

/-- C6 counterexample: on message "0xzz 7", the first token that is
0x-prefixed hex or pure decimal is "7" (value 7), yet `from_code` at 4902
returns `UnrecognizedChain 0`, because the source selects the first token
that merely starts with "0x" ("0xzz") and its hex parse fails. -/
theorem from_code_4902_first_token_counterexample :
    Eip1193Error.from_code 4902 "0xzz 7" = .UnrecognizedChain 0
    ∧ specHexOrDecimalTokenValue "0xzz 7" = some 7
    ∧ Eip1193Error.UnrecognizedChain 0 ≠ .UnrecognizedChain 7 := by
  refine ⟨by decide, by decide, by decide⟩

/-- C6 (amended): `from_code` at 4901 parses the last whitespace-delimited
token of the message as a decimal u64 and returns `ChainDisconnected` of it
(0 when parsing fails); at 4902 it takes the first whitespace-delimited token
that starts with "0x" or is all decimal digits, parses it as hex after
stripping leading "0x" repetitions or as decimal respectively, and returns
`UnrecognizedChain` of it (0 when no token is selected or the selected token
fails to parse); in particular the two concrete examples of the claim hold. -/
theorem from_code_chain_id_extraction (msg : String) :
    Eip1193Error.from_code 4901 msg =
      .ChainDisconnected ((specParseTrailingInteger msg).getD 0)
    ∧ Eip1193Error.from_code 4902 msg =
      .UnrecognizedChain (specAmendedHexOrDecValue msg)
    ∧ Eip1193Error.from_code 4902 "Unrecognized chain 0x7a69" =
      .UnrecognizedChain 31337
    ∧ Eip1193Error.from_code 4902 "chain 42161 missing" =
      .UnrecognizedChain 42161 :=
  ⟨from_code_4901_eq msg, from_code_4902_eq msg, by decide, by decide⟩

/-! ## Connection state machine (crates/leptos-rainbowkit/src/state/connection.rs)

The reactive signals of `ConnectionState` are modeled as plain record fields;
`Address` values are modeled as opaque `Nat` tokens, the `WalletProvider`
value likewise, and the `transports: HashMap<u64, String>` as an association
list.  Each event-handler closure and each atomic (await-free) segment of
`connect` becomes a pure state transformer. -/

/-- The `ConnectionStatus` enum. -/
inductive ConnectionStatus where
  | Disconnected
  | Connecting
  | Connected
deriving DecidableEq, Repr

/-- The signal fields of `ConnectionState` (status, address, chain_id,
connector_id, provider). -/
structure ConnState where
  status : ConnectionStatus
  address : Option Nat
  chain_id : Option Nat
  connector_id : Option String
  provider : Option Nat
deriving DecidableEq, Repr

/-- `ConnectionState::new`: all signals empty, status Disconnected. -/
def ConnState.init : ConnState :=
  { status := .Disconnected, address := none, chain_id := none,
    connector_id := none, provider := none }

/-- `HashMap::get` on the consumer-provided chain-to-RPC-URL map, modeled on
an association list. -/
def transportsGet (ts : List (Nat × String)) (k : Nat) : Option String :=
  (ts.find? (fun p => p.1 = k)).map (fun p => p.2)

/-- The accountsChanged closure (connection.rs lines 92-121).  The payload is
`none` when the event argument is not a JS array; otherwise the list of
entries, where an entry is `some a` when it is a string parsing to address
`a` and `none` otherwise. -/
def handleAccountsChanged (payload : Option (List (Option Nat)))
    (s : ConnState) : ConnState :=
  if s.status = .Disconnected then s
  else
    match payload with
    | none => s
    | some entries =>
      match entries with
      | [] => { s with address := none, status := .Disconnected }
      | first :: _ =>
        match first with
        | some addr => { s with address := some addr }
        | none => s

/-- The chainChanged closure (connection.rs lines 142-164).  The payload is
the `as_string` view of the event argument. -/
def handleChainChanged (payload : Option String) (s : ConnState) : ConnState :=
  if s.status = .Disconnected then s
  else
    match payload with
    | none => s
    | some hex =>
      match parseHexChainId hex with
      | some cid => { s with chain_id := some cid }
      | none => s

/-- The disconnect closure (connection.rs lines 188-203). -/
def handleDisconnectEvent (s : ConnState) : ConnState :=
  if s.status = .Disconnected then s
  else
    { status := .Disconnected, address := none, chain_id := none,
      provider := none, connector_id := none }

/-- The connect closure (connection.rs lines 224-245).  The payload is the
`as_string` view of the chainId field of the connect info, `none` when the
field is missing or not a string. -/
def handleConnectEvent (chainIdField : Option String) (s : ConnState) :
    ConnState :=
  if s.status = .Connected then s
  else
    match chainIdField with
    | none => s
    | some hex =>
      match parseHexChainId hex with
      | some cid => { s with chain_id := some cid }
      | none => s

/-- The connector argument of `connect`: only `metadata().id` is read by the
state machine. -/
structure Connector where
  id : String
deriving DecidableEq, Repr

/-- External outcomes consumed by one `connect` call: the connector's
`connect()` result, its `get_provider()` result, the outcome of the
`eth_chainId` round trip in `get_current_chain_id` (request, string view and
hex parse folded into one external outcome), whether the configured RPC URL
parses as a `reqwest::Url`, and the opaque token standing for the built
provider value. -/
structure ConnectEnv where
  connectResult : Except String Nat
  providerObject : Option Nat
  chainIdOutcome : Except String Nat
  urlValid : Bool
  providerToken : Nat

/-- `ConnectionState::connect` (connection.rs lines 275-343) as a sequential
state transformer: the final signal state and the returned result.  Error
strings built with `format!` carry their fixed prefix. -/
def ConnState.connect (ts : List (Nat × String)) (c : Connector)
    (env : ConnectEnv) (s : ConnState) : ConnState × Except String Unit :=
  if s.status = .Connecting then
    (s, .error "Connection already in progress")
  else if s.status = .Connected ∧ s.connector_id = some c.id then
    (s, .ok ())
  else
    let s1 : ConnState := { s with status := .Connecting }
    match env.connectResult with
    | .error e =>
      ({ s1 with status := .Disconnected, provider := none }, .error e)
    | .ok addr =>
      match env.providerObject with
      | none => (s1, .error "Connector did not provide ethereum provider")
      | some _ =>
        match env.chainIdOutcome with
        | .error e => (s1, .error e)
        | .ok cid =>
          match transportsGet ts cid with
          | none =>
            (s1, .error ("No RPC URL configured for chain " ++ toString cid))
          | some _ =>
            if env.urlValid then
              ({ status := .Connected, address := some addr,
                 chain_id := some cid, connector_id := some c.id,
                 provider := some env.providerToken }, .ok ())
            else (s1, .error "Invalid RPC URL")

/-- `ConnectionState::disconnect` (connection.rs lines 378-391). -/
def ConnState.disconnect (_s : ConnState) : ConnState × Except String Unit :=
  ({ address := none, chain_id := none, connector_id := none,
     provider := none, status := .Disconnected }, .ok ())

/-! ### Interleaved executions

`connect` is an async fn with two suspension points (`connector.connect()`
and the `eth_chainId` request inside `get_current_chain_id`); event handlers
and other calls may run between its atomic segments.  `MState` extends the
signal state with the multiset of suspended `connect` attempts: `pending1`
holds connector ids of attempts suspended at `connector.connect()`,
`pending2` holds (connector id, address) pairs of attempts suspended at the
chain-id request (these attempts already hold a provider object). -/
structure MState where
  conn : ConnState
  pending1 : List String
  pending2 : List (String × Nat)
deriving DecidableEq, Repr

/-- The initial machine state. -/
def MState.init : MState :=
  { conn := ConnState.init, pending1 := [], pending2 := [] }

/-- Atomic steps of the interleaved machine, labeled with the external
nondeterminism each resolves. -/
inductive CStep where
  /-- The segment of `connect` before its first await: the guards, then
  `status.set(Connecting)` on fall-through. -/
  | connectBegin (c : Connector)
  /-- A suspended attempt resumes with `connector.connect()` = Err:
  `status.set(Disconnected); provider.set(None)` and return. -/
  | connectFail (connId : String)
  /-- A suspended attempt resumes with `connector.connect()` = Ok(addr); if
  `get_provider()` returns None the call returns an error with no state
  change, otherwise the attempt suspends at the chain-id request. -/
  | connectOkAddr (connId : String) (addr : Nat) (providerPresent : Bool)
  /-- An attempt suspended at the chain-id request resumes: `chainRes` is the
  parsed chain id (`none` when the request or the parse failed); then the RPC
  URL lookup, the URL parse and, on success, the final batch of signal sets. -/
  | connectFinish (connId : String) (addr : Nat) (chainRes : Option Nat)
      (urlValid : Bool) (providerToken : Nat)
  /-- A `disconnect()` call (no awaits). -/
  | disconnectCall
  /-- Delivery of an accountsChanged event. -/
  | accountsChanged (payload : Option (List (Option Nat)))
  /-- Delivery of a chainChanged event. -/
  | chainChanged (payload : Option String)
  /-- Delivery of a disconnect event. -/
  | disconnectEvent
  /-- Delivery of a connect event. -/
  | connectEvent (chainIdField : Option String)
deriving DecidableEq, Repr

/-- One atomic step of the machine; `none` when the step is not enabled
(resuming an attempt that is not suspended). -/
def stepFn (ts : List (Nat × String)) (σ : CStep) (m : MState) :
    Option MState :=
  match σ with
  | .connectBegin c =>
    if m.conn.status = .Connecting then some m
    else if m.conn.status = .Connected ∧ m.conn.connector_id = some c.id then
      some m
    else
      some { m with conn := { m.conn with status := .Connecting },
                    pending1 := c.id :: m.pending1 }
  | .connectFail connId =>
    if connId ∈ m.pending1 then
      some { m with
        conn := { m.conn with status := .Disconnected, provider := none },
        pending1 := m.pending1.erase connId }
    else none
  | .connectOkAddr connId addr providerPresent =>
    if connId ∈ m.pending1 then
      if providerPresent then
        some { m with pending1 := m.pending1.erase connId,
                      pending2 := (connId, addr) :: m.pending2 }
      else some { m with pending1 := m.pending1.erase connId }
    else none
  | .connectFinish connId addr chainRes urlValid providerToken =>
    if (connId, addr) ∈ m.pending2 then
      let m1 : MState := { m with pending2 := m.pending2.erase (connId, addr) }
      match chainRes with
      | none => some m1
      | some cid =>
        match transportsGet ts cid with
        | none => some m1
        | some _ =>
          if urlValid then
            some { m1 with conn :=
              { status := .Connected, address := some addr,
                chain_id := some cid, connector_id := some connId,
                provider := some providerToken } }
          else some m1
    else none
  | .disconnectCall =>
    some { m with conn := (ConnState.disconnect m.conn).1 }
  | .accountsChanged payload =>
    some { m with conn := handleAccountsChanged payload m.conn }
  | .chainChanged payload =>
    some { m with conn := handleChainChanged payload m.conn }
  | .disconnectEvent =>
    some { m with conn := handleDisconnectEvent m.conn }
  | .connectEvent chainIdField =>
    some { m with conn := handleConnectEvent chainIdField m.conn }

/-- Run a list of steps from a machine state, failing when a step is not
enabled. -/
def runSteps (ts : List (Nat × String)) : List CStep → MState → Option MState
  | [], m => some m
  | σ :: rest, m =>
    match stepFn ts σ m with
    | some m1 => runSteps ts rest m1
    | none => none

/-- Reachability from the initial machine state under a fixed transport
configuration. -/
inductive Reachable (ts : List (Nat × String)) : MState → Prop
  | init : Reachable ts MState.init
  | step {m m1 : MState} (σ : CStep) :
      Reachable ts m → stepFn ts σ m = some m1 → Reachable ts m1

/-- The four status transitions the spec allows. -/
def specTransitions : List (ConnectionStatus × ConnectionStatus) :=
  [(.Disconnected, .Connecting), (.Connecting, .Connected),
   (.Connected, .Disconnected), (.Connecting, .Disconnected)]

/-- The amended set of status changes: the four transitions of the spec,
plus Connected-to-Connecting (a `connect` call with a different connector
while Connected) and Disconnected-to-Connected (a suspended `connect`
attempt completing after something else set Disconnected meanwhile). -/
def specAmendedAllowedChange (σ : CStep) (before after : MState) : Prop :=
  (before.conn.status, after.conn.status) ∈ specTransitions
  ∨ ((before.conn.status, after.conn.status)
        = (ConnectionStatus.Connected, ConnectionStatus.Connecting)
      ∧ ∃ c, σ = CStep.connectBegin c ∧ before.conn.connector_id ≠ some c.id)
  ∨ ((before.conn.status, after.conn.status)
        = (ConnectionStatus.Disconnected, ConnectionStatus.Connected)
      ∧ ∃ connId addr chainRes urlValid tok,
          σ = CStep.connectFinish connId addr chainRes urlValid tok)

/-- Helper: the chainChanged handler never changes the status. -/
lemma handleChainChanged_status (p : Option String) (s : ConnState) :
    (handleChainChanged p s).status = s.status := by
  unfold handleChainChanged
  by_cases h : s.status = .Disconnected
  · rw [if_pos h]
  · rw [if_neg h]
    cases p with
    | none => rfl
    | some hex => cases hph : parseHexChainId hex <;> simp [hph]

/-- Helper: the connect-event handler never changes the status. -/
lemma handleConnectEvent_status (p : Option String) (s : ConnState) :
    (handleConnectEvent p s).status = s.status := by
  unfold handleConnectEvent
  by_cases h : s.status = .Connected
  · rw [if_pos h]
  · rw [if_neg h]
    cases p with
    | none => rfl
    | some hex => cases hph : parseHexChainId hex <;> simp [hph]

/-- Helper: the accountsChanged handler either keeps the status or moves a
non-Disconnected status to Disconnected. -/
lemma handleAccountsChanged_status (p : Option (List (Option Nat)))
    (s : ConnState) :
    (handleAccountsChanged p s).status = s.status
    ∨ (s.status ≠ .Disconnected
        ∧ (handleAccountsChanged p s).status = .Disconnected) := by
  unfold handleAccountsChanged
  by_cases h : s.status = .Disconnected
  · rw [if_pos h]; exact Or.inl rfl
  · rw [if_neg h]
    cases p with
    | none => exact Or.inl rfl
    | some entries =>
      cases entries with
      | nil => exact Or.inr ⟨h, rfl⟩
      | cons first rest => cases first <;> exact Or.inl rfl

/-- Helper: the disconnect-event handler either keeps the status or moves a
non-Disconnected status to Disconnected. -/
lemma handleDisconnectEvent_status (s : ConnState) :
    (handleDisconnectEvent s).status = s.status
    ∨ (s.status ≠ .Disconnected
        ∧ (handleDisconnectEvent s).status = .Disconnected) := by
  unfold handleDisconnectEvent
  by_cases h : s.status = .Disconnected
  · rw [if_pos h]; exact Or.inl rfl
  · rw [if_neg h]; exact Or.inr ⟨h, rfl⟩

/-- Helper: a status change into Disconnected is always one of the spec
transitions. -/
lemma change_to_disconnected_mem {st : ConnectionStatus}
    (h : st ≠ .Disconnected) :
    (st, ConnectionStatus.Disconnected) ∈ specTransitions := by
  cases st with
  | Disconnected => exact absurd rfl h
  | Connecting => simp [specTransitions]
  | Connected => simp [specTransitions]

/-- C2 (amended): in every reachable execution, every status change caused
by an atomic step is one of the four spec transitions, or
Connected-to-Connecting caused by a `connect` call naming a different
connector, or Disconnected-to-Connected caused by a suspended `connect`
attempt completing. -/
theorem reachable_status_transitions (ts : List (Nat × String)) (σ : CStep)
    (m m1 : MState) (_hreach : Reachable ts m)
    (hstep : stepFn ts σ m = some m1)
    (hchange : m1.conn.status ≠ m.conn.status) :
    specAmendedAllowedChange σ m m1 := by
  cases σ with
  | connectBegin c =>
    simp only [stepFn] at hstep
    by_cases h1 : m.conn.status = .Connecting
    · rw [if_pos h1] at hstep
      cases Option.some.inj hstep
      exact absurd rfl hchange
    · rw [if_neg h1] at hstep
      by_cases h2 : m.conn.status = .Connected ∧ m.conn.connector_id = some c.id
      · rw [if_pos h2] at hstep
        cases Option.some.inj hstep
        exact absurd rfl hchange
      · rw [if_neg h2] at hstep
        cases Option.some.inj hstep
        cases hst : m.conn.status with
        | Disconnected => exact Or.inl (by simp [specTransitions, hst])
        | Connecting => exact absurd hst h1
        | Connected =>
          refine Or.inr (Or.inl ⟨by simp [hst], c, rfl, fun hc => h2 ⟨hst, hc⟩⟩)
  | connectFail connId =>
    simp only [stepFn] at hstep
    by_cases h1 : connId ∈ m.pending1
    · rw [if_pos h1] at hstep
      cases Option.some.inj hstep
      by_cases hst : m.conn.status = .Disconnected
      · exact absurd (by simp [hst]) hchange
      · exact Or.inl (change_to_disconnected_mem hst)
    · rw [if_neg h1] at hstep
      exact Option.noConfusion hstep
  | connectOkAddr connId addr providerPresent =>
    simp only [stepFn] at hstep
    by_cases h1 : connId ∈ m.pending1
    · rw [if_pos h1] at hstep
      cases providerPresent with
      | true =>
        rw [if_pos rfl] at hstep
        cases Option.some.inj hstep
        exact absurd rfl hchange
      | false =>
        rw [if_neg (by simp)] at hstep
        cases Option.some.inj hstep
        exact absurd rfl hchange
    · rw [if_neg h1] at hstep
      exact Option.noConfusion hstep
  | connectFinish connId addr chainRes urlValid tok =>
    simp only [stepFn] at hstep
    split at hstep
    · split at hstep
      · cases Option.some.inj hstep
        exact absurd rfl hchange
      · split at hstep
        · cases Option.some.inj hstep
          exact absurd rfl hchange
        · split at hstep
          · cases Option.some.inj hstep
            cases hst : m.conn.status with
            | Disconnected =>
              exact Or.inr (Or.inr ⟨by simp [hst], _, _, _, _, _, rfl⟩)
            | Connecting => exact Or.inl (by simp [specTransitions, hst])
            | Connected => exact absurd (by simp [hst]) hchange
          · cases Option.some.inj hstep
            exact absurd rfl hchange
    · exact Option.noConfusion hstep
  | disconnectCall =>
    simp only [stepFn, ConnState.disconnect] at hstep
    cases Option.some.inj hstep
    by_cases hst : m.conn.status = .Disconnected
    · exact absurd (by simp [hst]) hchange
    · exact Or.inl (change_to_disconnected_mem hst)
  | accountsChanged payload =>
    simp only [stepFn] at hstep
    cases Option.some.inj hstep
    rcases handleAccountsChanged_status payload m.conn with h | ⟨hne, hd⟩
    · exact absurd h hchange
    · unfold specAmendedAllowedChange
      refine Or.inl ?_
      show (m.conn.status, (handleAccountsChanged payload m.conn).status)
        ∈ specTransitions
      rw [hd]
      exact change_to_disconnected_mem hne
  | chainChanged payload =>
    simp only [stepFn] at hstep
    cases Option.some.inj hstep
    exact absurd (handleChainChanged_status payload m.conn) hchange
  | disconnectEvent =>
    simp only [stepFn] at hstep
    cases Option.some.inj hstep
    rcases handleDisconnectEvent_status m.conn with h | ⟨hne, hd⟩
    · exact absurd h hchange
    · unfold specAmendedAllowedChange
      refine Or.inl ?_
      show (m.conn.status, (handleDisconnectEvent m.conn).status)
        ∈ specTransitions
      rw [hd]
      exact change_to_disconnected_mem hne
  | connectEvent chainIdField =>
    simp only [stepFn] at hstep
    cases Option.some.inj hstep
    exact absurd (handleConnectEvent_status chainIdField m.conn) hchange

/-- Witness for the reachable-status-transitions theorem: the very first
`connect` call moves the initial Disconnected state to Connecting. -/
theorem reachable_status_transitions_witness :
    specAmendedAllowedChange (CStep.connectBegin (Connector.mk "a"))
      MState.init
      { conn := { status := .Connecting, address := none, chain_id := none,
                  connector_id := none, provider := none },
        pending1 := ["a"], pending2 := [] } :=
  reachable_status_transitions [] (CStep.connectBegin (Connector.mk "a"))
    MState.init
    { conn := { status := .Connecting, address := none, chain_id := none,
                connector_id := none, provider := none },
      pending1 := ["a"], pending2 := [] }
    Reachable.init (by decide) (by decide)

/-- Concrete transport configuration used by counterexample runs. -/
def cexTransports : List (Nat × String) := [(1, "http://localhost:8545")]

/-- Run: connect with connector "a", resume with address 5 and a provider,
finish with chain id 1: reaches Connected. -/
def cexTraceConnected : List CStep :=
  [CStep.connectBegin (Connector.mk "a"), CStep.connectOkAddr "a" 5 true,
   CStep.connectFinish "a" 5 (some 1) true 9]

/-- Run: after reaching Connected with connector "a", call connect with the
different connector "b". -/
def cexTraceReconnect : List CStep :=
  cexTraceConnected ++ [CStep.connectBegin (Connector.mk "b")]

/-- Run: connect with connector "a" suspends, a disconnect event fires while
it is suspended, then the suspended attempt completes. -/
def cexTraceInterleavedPrefix : List CStep :=
  [CStep.connectBegin (Connector.mk "a"), CStep.connectOkAddr "a" 5 true,
   CStep.disconnectEvent]

/-- The interleaved run continued by the completion of the suspended
attempt. -/
def cexTraceInterleaved : List CStep :=
  cexTraceInterleavedPrefix ++ [CStep.connectFinish "a" 5 (some 1) true 9]

/-- C2 counterexample: two reachable executions change status along edges
outside the four spec transitions.  Calling `connect` with a different
connector while Connected moves Connected to Connecting, and a suspended
`connect` attempt that completes after a disconnect event moves Disconnected
to Connected. -/
theorem connection_status_transitions_counterexample :
    (runSteps cexTransports cexTraceConnected MState.init).map
        (fun m => m.conn.status) = some ConnectionStatus.Connected
    ∧ (runSteps cexTransports cexTraceReconnect MState.init).map
        (fun m => m.conn.status) = some ConnectionStatus.Connecting
    ∧ (ConnectionStatus.Connected, ConnectionStatus.Connecting)
        ∉ specTransitions
    ∧ (runSteps cexTransports cexTraceInterleavedPrefix MState.init).map
        (fun m => m.conn.status) = some ConnectionStatus.Disconnected
    ∧ (runSteps cexTransports cexTraceInterleaved MState.init).map
        (fun m => m.conn.status) = some ConnectionStatus.Connected
    ∧ (ConnectionStatus.Disconnected, ConnectionStatus.Connected)
        ∉ specTransitions := by
  refine ⟨by decide, by decide, by decide, by decide, by decide, by decide⟩

/-- C3 (code bug): a `connect` call for which the connector succeeds but no
RPC URL is configured for the reported chain returns the configuration error
and leaves status at Connecting: it does not revert to Disconnected. -/
theorem connect_no_rpc_url_leaves_connecting :
    (ConnState.connect [] (Connector.mk "metamask")
       { connectResult := Except.ok 5, providerObject := some 1,
         chainIdOutcome := Except.ok 5, urlValid := true,
         providerToken := 9 } ConnState.init).1.status
      = ConnectionStatus.Connecting
    ∧ (ConnState.connect [] (Connector.mk "metamask")
       { connectResult := Except.ok 5, providerObject := some 1,
         chainIdOutcome := Except.ok 5, urlValid := true,
         providerToken := 9 } ConnState.init).2
      = Except.error "No RPC URL configured for chain 5"
    ∧ ConnectionStatus.Connecting ≠ ConnectionStatus.Disconnected := by
  refine ⟨by decide, rfl, by decide⟩


/-- Concrete fully-populated Connected state used by the C4 counterexample. -/
def cexConnectedState : ConnState :=
  { status := .Connected, address := some 5, chain_id := some 1,
    connector_id := some "metamask", provider := some 9 }

/-- C4 counterexample: an accountsChanged event with an empty list, fired
while Connected with a populated snapshot, clears only the address and the
status; chain id, connector id and provider are left populated, so the
snapshot is not cleared as the claim states. -/
theorem accounts_changed_empty_counterexample :
    (handleAccountsChanged (some []) cexConnectedState).status
      = ConnectionStatus.Disconnected
    ∧ (handleAccountsChanged (some []) cexConnectedState).address = none
    ∧ (handleAccountsChanged (some []) cexConnectedState).chain_id ≠ none
    ∧ (handleAccountsChanged (some []) cexConnectedState).connector_id ≠ none
    ∧ (handleAccountsChanged (some []) cexConnectedState).provider ≠ none := by
  refine ⟨by decide, by decide, by decide, by decide, by decide⟩

/-- C4 (amended): while Disconnected the accountsChanged handler changes
nothing; otherwise an empty address list clears the address and sets
Disconnected while leaving chain id, connector id and provider unchanged,
and a non-empty list whose first entry is an address updates only the
address. -/
theorem accounts_changed_event (s : ConnState)
    (p : Option (List (Option Nat))) (a : Nat) (rest : List (Option Nat))
    (b : Bool) :
    handleAccountsChanged p { s with status := .Disconnected }
        = { s with status := .Disconnected }
    ∧ handleAccountsChanged (some [])
        { s with status := cond b .Connecting .Connected }
        = { s with status := .Disconnected, address := none }
    ∧ handleAccountsChanged (some (some a :: rest))
        { s with status := cond b .Connecting .Connected }
        = { s with
            status := cond b .Connecting .Connected,
            address := some a } :=
  ⟨rfl, by cases b <;> rfl, by cases b <;> rfl⟩

/-- C5 counterexample: a connect event carrying chain id "0x1" fired while
Disconnected does update the chain id (the handler guard checks for
Connected, not Disconnected), contradicting the claim that the handler
leaves every field unchanged while Disconnected. -/
theorem connect_event_while_disconnected_counterexample :
    (handleConnectEvent (some "0x1") ConnState.init).chain_id = some 1
    ∧ ConnState.init.chain_id = none
    ∧ ConnState.init.status = ConnectionStatus.Disconnected := by
  refine ⟨by decide, by decide, by decide⟩

/-- C5 (amended): the connect-event handler never changes the status (in
particular it never sets Connected by itself); it ignores the event entirely
when already Connected; and otherwise - including while Disconnected - it
refreshes the chain id from the payload when the payload parses as hex. -/
theorem connect_event_behavior (info : Option String) (s : ConnState)
    (hex : String) (b : Bool) :
    (handleConnectEvent info s).status = s.status
    ∧ handleConnectEvent info { s with status := .Connected }
        = { s with status := .Connected }
    ∧ handleConnectEvent none s = s
    ∧ handleConnectEvent (some hex)
        { s with status := cond b .Disconnected .Connecting }
        = (match parseHexChainId hex with
           | some cid => { s with
               status := cond b .Disconnected .Connecting,
               chain_id := some cid }
           | none => { s with status := cond b .Disconnected .Connecting }) := by
  refine ⟨handleConnectEvent_status info s, rfl, ?_, ?_⟩
  · unfold handleConnectEvent
    split <;> rfl
  · cases b <;> cases hph : parseHexChainId hex <;>
      simp [handleConnectEvent, hph]

/-- C7: `disconnect` always succeeds and resets every field, it is
idempotent, and `connect` invoked on any state whose status is Connecting
returns the connection-in-progress error with the state unchanged. -/
theorem disconnect_idempotent_connect_guard (s : ConnState)
    (ts : List (Nat × String)) (c : Connector) (env : ConnectEnv) :
    (ConnState.disconnect s).2 = .ok ()
    ∧ (ConnState.disconnect s).1 =
        { status := .Disconnected, address := none, chain_id := none,
          connector_id := none, provider := none }
    ∧ ConnState.disconnect (ConnState.disconnect s).1 = ConnState.disconnect s
    ∧ ConnState.connect ts c env { s with status := .Connecting }
        = ({ s with status := .Connecting },
           .error "Connection already in progress") :=
  ⟨rfl, rfl, rfl, rfl⟩


/-! ## Request bridge (crates/alloy-eip1193/src/transport.rs)

The serde_json/JS JSON round trips inside `request_raw` are faithful on JSON
values, so the bridge is modeled directly on a JSON value type.  The provider
is the external `request` entry point: a function from the `{method, params}`
object it receives to a success value or a rejection. -/

/-- Model of serde_json::Value, with numbers restricted to the unsigned
integers the bridge actually reads (ids are extracted with `as_u64`). -/
inductive JsVal where
  | jstr (s : String)
  | jnum (n : Nat)
  | jbool (b : Bool)
  | jnull
  | jarr (items : List JsVal)
  | jobj (entries : List (String × JsVal))

/-- Structural equality test on modeled JSON values. -/
def JsVal.beq : JsVal → JsVal → Bool
  | .jstr a, .jstr b => a = b
  | .jnum a, .jnum b => a = b
  | .jbool a, .jbool b => a = b
  | .jnull, .jnull => true
  | .jarr a, .jarr b => beqItems a b
  | .jobj a, .jobj b => beqEntries a b
  | _, _ => false
where
  /-- Structural equality on item lists. -/
  beqItems : List JsVal → List JsVal → Bool
    | [], [] => true
    | x :: xs, y :: ys => JsVal.beq x y && beqItems xs ys
    | _, _ => false
  /-- Structural equality on object entry lists. -/
  beqEntries : List (String × JsVal) → List (String × JsVal) → Bool
    | [], [] => true
    | (k, v) :: xs, (l, w) :: ys => k = l && JsVal.beq v w && beqEntries xs ys
    | _, _ => false

/-- serde_json `Value::get(key)` on an object. -/
def JsVal.getKey : JsVal → String → Option JsVal
  | .jobj entries, key => (entries.find? (fun p => p.1 = key)).map (fun p => p.2)
  | _, _ => none

/-- serde_json `Value::as_str`. -/
def JsVal.as_str : JsVal → Option String
  | .jstr s => some s
  | _ => none

/-- serde_json `Value::as_u64`. -/
def JsVal.as_u64 : JsVal → Option Nat
  | .jnum n => some n
  | _ => none

/-- The `{method, params}` object handed to the provider's `request` entry
point. -/
structure ProviderRequest where
  method : String
  params : JsVal

/-- A JSON-RPC 2.0 request id: a u64 number, a string, or null. -/
inductive RpcId where
  | num (n : Nat)
  | str (s : String)
  | null
deriving DecidableEq, Repr

/-- JSON serialization of an id. -/
def RpcId.toJson : RpcId → JsVal
  | .num n => .jnum n
  | .str s => .jstr s
  | .null => .jnull

/-- A single inbound JSON-RPC request envelope (alloy `Request`): id, method
and optional params. -/
structure SingleRequest where
  id : RpcId
  method : String
  params : Option JsVal

/-- Serialization of the inbound envelope, as `Service::call` sees it after
`serde_json::to_string` and re-parse: params omitted when absent. -/
def SingleRequest.serialize (r : SingleRequest) : JsVal :=
  .jobj ([("jsonrpc", .jstr "2.0"), ("id", r.id.toJson),
         ("method", .jstr r.method)]
        ++ (match r.params with
            | some p => [("params", p)]
            | none => []))

/-- `Eip1193Transport::request_raw` (transport.rs lines 142-198): invoke the
provider with `{method, params}` and wrap a success in a JSON-RPC envelope
`{jsonrpc: "2.0", id, result}`.  The provider argument resolves the awaited
Promise: `Except.error` is a rejection. -/
def Eip1193Transport.request_raw
    (provider : ProviderRequest → Except String JsVal)
    (method : String) (params : JsVal) (id : Nat) : Except String JsVal :=
  match provider ⟨method, params⟩ with
  | .error e => .error e
  | .ok result =>
    .ok (.jobj [("jsonrpc", .jstr "2.0"), ("id", .jnum id),
                ("result", result)])

/-- `Service::call` (transport.rs lines 238-281): extract method, params and
id from the serialized request, substituting an empty array for missing
params and 0 for a missing or non-u64 id, then delegate to `request_raw`. -/
def Eip1193Transport.call (provider : ProviderRequest → Except String JsVal)
    (reqJson : JsVal) : Except String JsVal :=
  match (reqJson.getKey "method").bind JsVal.as_str with
  | none => .error "Missing method in request"
  | some method =>
    let params := (reqJson.getKey "params").getD (.jarr [])
    let id := ((reqJson.getKey "id").bind JsVal.as_u64).getD 0
    Eip1193Transport.request_raw provider method params id

/-- The spec-side id extraction the amended claim describes: a u64 numeric
id is preserved, anything else becomes 0. -/
def specEnvelopeId : RpcId → Nat
  | .num n => n
  | _ => 0

/-- C8 counterexample: a request envelope with the string id "abc" whose
provider call succeeds produces a response envelope with id 0, not the
inbound id. -/
theorem envelope_string_id_counterexample :
    Eip1193Transport.call (fun _ => .ok (.jstr "0x1"))
        (SingleRequest.serialize ⟨.str "abc", "eth_chainId", none⟩)
      = .ok (.jobj [("jsonrpc", .jstr "2.0"), ("id", .jnum 0),
                    ("result", .jstr "0x1")])
    ∧ RpcId.toJson (.str "abc") = .jstr "abc"
    ∧ JsVal.beq (.jnum 0) (.jstr "abc") = false := by
  refine ⟨rfl, rfl, rfl⟩

/-- C8 (amended): for every inbound envelope whose provider call succeeds,
the bridge builds `{jsonrpc: "2.0", id, result}` where `id` is the inbound
id when that id is a u64 number and 0 otherwise (string, null or missing
ids are not preserved), and the params passed to the provider's request
entry point are the inbound params or an empty array when the inbound
envelope carries none. -/
theorem envelope_adapter_success (r : SingleRequest)
    (provider : ProviderRequest → Except String JsVal) (result : JsVal)
    (hok : provider ⟨r.method, r.params.getD (.jarr [])⟩ = .ok result) :
    Eip1193Transport.call provider r.serialize
      = .ok (.jobj [("jsonrpc", .jstr "2.0"),
                    ("id", .jnum (specEnvelopeId r.id)),
                    ("result", result)]) := by
  have hmethod : (r.serialize.getKey "method").bind JsVal.as_str
      = some r.method := by
    cases r with
    | mk id method params =>
      cases params <;> cases id <;> rfl
  have hparams : (r.serialize.getKey "params").getD (.jarr [])
      = r.params.getD (.jarr []) := by
    cases r with
    | mk id method params =>
      cases params <;> cases id <;> rfl
  have hid : ((r.serialize.getKey "id").bind JsVal.as_u64).getD 0
      = specEnvelopeId r.id := by
    cases r with
    | mk id method params =>
      cases params <;> cases id <;> rfl
  unfold Eip1193Transport.call
  rw [hmethod]
  simp only [hparams, hid]
  unfold Eip1193Transport.request_raw
  rw [hok]

/-- Witness for the envelope-adapter theorem at a concrete request and
provider. -/
theorem envelope_adapter_success_witness :
    Eip1193Transport.call (fun _ => .ok (.jnum 7))
        (SingleRequest.serialize ⟨.num 3, "eth_accounts", none⟩)
      = .ok (.jobj [("jsonrpc", .jstr "2.0"), ("id", .jnum 3),
                    ("result", .jnum 7)]) :=
  envelope_adapter_success ⟨.num 3, "eth_accounts", none⟩
    (fun _ => .ok (.jnum 7)) (.jnum 7) rfl


/-! ## Signer (crates/alloy-eip1193/src/signer.rs)

Addresses and hashes are byte lists; `format!("{:?}", address)` (the Debug
form of an alloy `Address`) is "0x" followed by lowercase hex, and
`hex::encode` is lowercase hex.  Each signing operation is modeled by the
single RPC call it issues through the transport. -/

/-- Lowercase hex character for a value below 16. -/
def hexChar (n : Nat) : Char :=
  if n < 10 then Char.ofNat (48 + n) else Char.ofNat (97 + (n - 10))

/-- Rust `hex::encode`: lowercase hex, two characters per byte. -/
def hexEncode (bytes : List Nat) : String :=
  String.mk (bytes.foldr
    (fun b acc => hexChar (b / 16 % 16) :: hexChar (b % 16) :: acc) [])

/-- Debug form of an alloy `Address`: "0x" followed by lowercase hex. -/
def debugAddress (a : List Nat) : String :=
  "0x" ++ hexEncode a

/-- The `Eip1193Signer` struct: the transport wraps the opaque ethereum
object (a token), plus the cached address and optional chain id. -/
structure Eip1193Signer where
  transport : Nat
  address : List Nat
  chain_id : Option Nat
deriving DecidableEq, Repr

/-- `Eip1193Signer::new` (signer.rs lines 39-45): no cached chain id. -/
def Eip1193Signer.new (ethereum : Nat) (address : List Nat) : Eip1193Signer :=
  { transport := ethereum, address := address, chain_id := none }

/-- `Eip1193Signer::new_with_chain_id` (signer.rs lines 53-59). -/
def Eip1193Signer.new_with_chain_id (ethereum : Nat) (address : List Nat)
    (chain_id : Nat) : Eip1193Signer :=
  { transport := ethereum, address := address, chain_id := some chain_id }

/-- `Signer::set_chain_id` (signer.rs lines 180-182). -/
def Eip1193Signer.set_chain_id (s : Eip1193Signer) (chain_id : Option Nat) :
    Eip1193Signer :=
  { s with chain_id := chain_id }

/-- The state update of `Eip1193Signer::refresh_chain_id` (signer.rs lines
100-110) when the eth_chainId round trip yields `chain_id`. -/
def Eip1193Signer.refresh_chain_id_ok (s : Eip1193Signer) (chain_id : Nat) :
    Eip1193Signer :=
  { s with chain_id := some chain_id }

/-- `Eip1193Signer::validate_chain_id` (signer.rs lines 117-127). -/
def Eip1193Signer.validate_chain_id (s : Eip1193Signer) (expected : Nat) :
    Except String Unit :=
  match s.chain_id with
  | some current =>
    if current ≠ expected then
      .error ("Chain ID mismatch: wallet is on chain " ++ toString current
        ++ ", expected chain " ++ toString expected)
    else .ok ()
  | none => .ok ()

/-- The single RPC call a signing operation sends through the transport. -/
structure RpcCallMade where
  method : String
  params : List JsVal

/-- `Signer::sign_hash` (signer.rs lines 135-151): eth_sign with params
(address, hashHex). -/
def Eip1193Signer.sign_hash_call (s : Eip1193Signer) (hash : List Nat) :
    RpcCallMade :=
  { method := "eth_sign",
    params := [.jstr (debugAddress s.address),
               .jstr ("0x" ++ hexEncode hash)] }

/-- `Signer::sign_message` (signer.rs lines 154-170): personal_sign with
params (messageHex, address). -/
def Eip1193Signer.sign_message_call (s : Eip1193Signer)
    (message : List Nat) : RpcCallMade :=
  { method := "personal_sign",
    params := [.jstr ("0x" ++ hexEncode message),
               .jstr (debugAddress s.address)] }

/-- `Signer::sign_dynamic_typed_data` (signer.rs lines 190-209):
eth_signTypedData_v4 with params (address, typed data serialized to JSON). -/
def Eip1193Signer.sign_typed_data_call (s : Eip1193Signer)
    (payloadJson : JsVal) : RpcCallMade :=
  { method := "eth_signTypedData_v4",
    params := [.jstr (debugAddress s.address), payloadJson] }

/-- `TxSigner::sign_transaction` (signer.rs lines 220-242): encode the
transaction for signing, keccak256 the encoding, and delegate to
`sign_hash`.  Encoding and hashing are the external alloy primitives. -/
def Eip1193Signer.sign_transaction_call {Tx : Type}
    (keccak256 : List Nat → List Nat) (encode_for_signing : Tx → List Nat)
    (s : Eip1193Signer) (tx : Tx) : RpcCallMade :=
  s.sign_hash_call (keccak256 (encode_for_signing tx))

/-- C9: each signing operation delegates with its fixed method name and
fixed parameter order; the first param of eth_sign and eth_signTypedData_v4
and the second param of personal_sign is the configured address; and
sign_transaction issues exactly the eth_sign call for the keccak256 hash of
the signing encoding. -/
theorem signer_method_param_table (s : Eip1193Signer) (hash message : List Nat)
    (payloadJson : JsVal) {Tx : Type} (keccak256 : List Nat → List Nat)
    (encode_for_signing : Tx → List Nat) (tx : Tx) :
    s.sign_hash_call hash
      = { method := "eth_sign",
          params := [.jstr (debugAddress s.address),
                     .jstr ("0x" ++ hexEncode hash)] }
    ∧ s.sign_message_call message
      = { method := "personal_sign",
          params := [.jstr ("0x" ++ hexEncode message),
                     .jstr (debugAddress s.address)] }
    ∧ s.sign_typed_data_call payloadJson
      = { method := "eth_signTypedData_v4",
          params := [.jstr (debugAddress s.address), payloadJson] }
    ∧ Eip1193Signer.sign_transaction_call keccak256 encode_for_signing s tx
      = s.sign_hash_call (keccak256 (encode_for_signing tx)) :=
  ⟨rfl, rfl, rfl, rfl⟩

/-- C10: a signer built with `new` has no cached chain id; validation with
an unset chain id succeeds for every expected chain; and with a cached chain
id it succeeds exactly when the cached and expected values agree. -/
theorem validate_chain_id_unset_vacuous (ethereum : Nat) (a : List Nat)
    (expected : Nat) (s : Eip1193Signer) :
    (Eip1193Signer.new ethereum a).chain_id = none
    ∧ (Eip1193Signer.new ethereum a).validate_chain_id expected = .ok ()
    ∧ Eip1193Signer.validate_chain_id { s with chain_id := none } expected
      = .ok ()
    ∧ (match s.chain_id with
       | none => s.validate_chain_id expected = .ok ()
       | some current =>
         (s.validate_chain_id expected = .ok () ↔ current = expected)) := by
  refine ⟨rfl, rfl, rfl, ?_⟩
  cases hc : s.chain_id with
  | none => unfold Eip1193Signer.validate_chain_id; rw [hc]
  | some current =>
    unfold Eip1193Signer.validate_chain_id
    rw [hc]
    by_cases h : current = expected
    · simp [h]
    · simp [h]

end NexumKit
